import Mathlib

/-!
# Verification of the todo-app authentication / ownership core

Shallow embedding of `backend/src/services/auth.py`,
`backend/src/services/todo_service.py`, `backend/src/api/auth.py`,
`backend/src/api/todos.py`, `backend/src/models/todo.py` and
`backend/src/models/user.py` (the user model as found at
`api/backend/src/models/user.py`).

Strings are embedded as Lean `String`, passwords as `List Char` (Python
strings are sequences of code points; `s[:-1]` drops the last code point).
UUIDs, timestamps and the signing secret are embedded as `Nat`.
Database sessions are embedded as explicit list-valued stores threaded
through the operations.
-/

namespace TodoApp

/-- UTF-8 byte length of a password, `len(s.encode('utf-8'))` in the source. -/
def utf8Len (s : List Char) : Nat := (s.map Char.utf8Size).sum

theorem utf8Len_nil : utf8Len [] = 0 := rfl

/-- The truncation loop shared by `get_password_hash` and `verify_password`
(`backend/src/services/auth.py`): while the UTF-8 encoding exceeds 71 bytes,
drop the last character (`truncated_password[:-1]`).  Every iteration
drops one character, so `s.length` iterations always suffice; the
explicit fuel makes the recursion structural. -/
def truncateLoop : Nat → List Char → List Char
  | 0, s => s
  | fuel + 1, s => if utf8Len s > 71 then truncateLoop fuel s.dropLast else s

def truncatePassword (s : List Char) : List Char :=
  truncateLoop s.length s

/-- A password already within the 71-byte bound passes the loop untouched. -/
theorem truncateLoop_of_le (fuel : Nat) {s : List Char} (h : ¬ utf8Len s > 71) :
    truncateLoop fuel s = s := by
  cases fuel <;> simp [truncateLoop, h]

/-- The external bcrypt collaborator, specified at its interface boundary
(spec §4.1): a salted hash object such that `checkpw p (hashpw q salt)`
holds exactly when `p = q`.  The source only ever calls `bcrypt.hashpw`
and `bcrypt.checkpw`, never inspecting hash internals, and feeds both
with inputs already truncated to at most 71 bytes, below bcrypt's own
72-byte ceiling, so equality semantics is faithful on all reachable
inputs. -/
structure BcryptHash where
  salt : Nat
  content : List Char
deriving DecidableEq, Repr

def bcrypt_hashpw (password : List Char) (salt : Nat) : BcryptHash :=
  ⟨salt, password⟩

def bcrypt_checkpw (password : List Char) (hashed : BcryptHash) : Bool :=
  password == hashed.content

/-- Embeds `verify_password` (`backend/src/services/auth.py` lines 35-51): truncate
the plain password to at most 71 UTF-8 bytes by dropping trailing
characters, then `bcrypt.checkpw` against the stored hash. -/
def verify_password (plain_password : List Char) (hashed_password : BcryptHash) : Bool :=
  bcrypt_checkpw (truncatePassword plain_password) hashed_password

/-- Embeds `get_password_hash` (`backend/src/services/auth.py` lines 53-76): reject
passwords under 8 characters with a `ValueError`, truncate to at most
71 UTF-8 bytes by the same loop, then `bcrypt.hashpw` with a fresh salt
(the salt is passed explicitly here). -/
def get_password_hash (password : List Char) (salt : Nat) : Except String BcryptHash :=
  if password.length < 8 then
    .error "Password must be at least 8 characters long"
  else
    .ok (bcrypt_hashpw (truncatePassword password) salt)

end TodoApp

namespace TodoApp

/-- Embeds `PriorityEnum` (`backend/src/models/todo.py`): low / medium / high. -/
inductive PriorityEnum where
  | low
  | medium
  | high
deriving DecidableEq, Repr

/-- HTTP exceptions raised by the source (`HTTPException(status_code, detail)`). -/
structure HTTPError where
  status_code : Nat
  detail : String
deriving DecidableEq, Repr

/-- The `Todo` table row (`backend/src/models/todo.py` lines 46-58): id,
title, optional description, completed flag, owning `user_id`, creation
and update timestamps, optional due date, and the priority inherited
from `TodoBase`. -/
structure Todo where
  id : Nat
  title : String
  description : Option String
  completed : Bool
  user_id : Nat
  created_at : Nat
  updated_at : Nat
  due_date : Option Nat
  priority : Option PriorityEnum
deriving DecidableEq, Repr

/-- Embeds `TodoCreate = TodoBase` (`backend/src/models/todo.py`): the create
payload carries title, description, completed, due_date and priority —
and no user-id field at all. -/
structure TodoCreate where
  title : String
  description : Option String := none
  completed : Bool := false
  due_date : Option Nat := none
  priority : Option PriorityEnum := some .medium
deriving DecidableEq, Repr

/-- The `TodoBase.validate_title_not_empty` model validator
(`backend/src/models/todo.py` lines 23-28), run by pydantic when a create
payload is parsed: a payload whose title is the empty string is rejected
with `ValueError("Title cannot be empty")`. -/
def parseTodoCreate (title : String) (description : Option String)
    (completed : Bool) (due_date : Option Nat) (priority : Option PriorityEnum) :
    Except String TodoCreate :=
  if title == "" then
    .error "Title cannot be empty"
  else
    .ok ⟨title, description, completed, due_date, priority⟩

/-- Embeds `TodoUpdate` (`backend/src/models/todo.py` lines 72-77): every field
optional, `none` meaning the field was not set in the patch
(`model_dump(exclude_unset=True)` drops it).  For the nullable target
fields the set value is itself an `Option`.  `TodoUpdate` declares no
validator on `title` and carries no `user_id`, `id`, `created_at` or
`updated_at` field. -/
structure TodoUpdate where
  title : Option String := none
  description : Option (Option String) := none
  completed : Option Bool := none
  due_date : Option (Option Nat) := none
  priority : Option (Option PriorityEnum) := none
deriving DecidableEq, Repr

/-- The update loop of `update_todo` (`backend/src/services/todo_service.py`
lines 52-55): `for field, value in update_data.items(): setattr(todo,
field, value)` — exactly the fields present in the patch are written. -/
def applyTodoUpdate (todo : Todo) (u : TodoUpdate) : Todo :=
  let t := match u.title with
    | some v => { todo with title := v }
    | none => todo
  let t := match u.description with
    | some v => { t with description := v }
    | none => t
  let t := match u.completed with
    | some v => { t with completed := v }
    | none => t
  let t := match u.due_date with
    | some v => { t with due_date := v }
    | none => t
  match u.priority with
    | some v => { t with priority := v }
    | none => t

/-- The database session for todos: the list of persisted rows. -/
abbrev TodoStore := List Todo

/-- Embeds `create_todo` (`backend/src/services/todo_service.py` lines 8-21): build
a `Todo` from the payload's fields with `user_id` forced to the caller's
identity, add and commit.  The fresh primary key and the clock are
passed explicitly. -/
def create_todo (store : TodoStore) (todo_create : TodoCreate) (user_id : Nat)
    (new_id now : Nat) : Todo × TodoStore :=
  let todo : Todo :=
    { id := new_id
      title := todo_create.title
      description := todo_create.description
      completed := todo_create.completed
      user_id := user_id
      created_at := now
      updated_at := now
      due_date := todo_create.due_date
      priority := todo_create.priority }
  (todo, store ++ [todo])

/-- Embeds `get_todos` (`backend/src/services/todo_service.py` lines 23-29):
`select(Todo).where(Todo.user_id == user_id)`. -/
def get_todos (store : TodoStore) (user_id : Nat) : List Todo :=
  store.filter (fun t => t.user_id == user_id)

/-- Embeds `get_todo` (`backend/src/services/todo_service.py` lines 31-44):
`select(Todo).where(Todo.id == todo_id, Todo.user_id == user_id)`, first
row or `HTTPException(404, "Todo not found")`. -/
def get_todo (store : TodoStore) (todo_id : Nat) (user_id : Nat) :
    Except HTTPError Todo :=
  match store.find? (fun t => t.id == todo_id && t.user_id == user_id) with
  | some todo => .ok todo
  | none => .error ⟨404, "Todo not found"⟩

/-- Embeds `update_todo` (`backend/src/services/todo_service.py` lines 46-61):
re-run the scoped `get_todo`, apply the patched fields, commit the
updated row. -/
def update_todo (store : TodoStore) (todo_id : Nat) (todo_update : TodoUpdate)
    (user_id : Nat) : Except HTTPError (Todo × TodoStore) :=
  match get_todo store todo_id user_id with
  | .error e => .error e
  | .ok todo =>
    let updated := applyTodoUpdate todo todo_update
    .ok (updated, store.map (fun t => if t.id == todo_id then updated else t))

/-- Embeds `delete_todo` (`backend/src/services/todo_service.py` lines 63-72):
re-run the scoped `get_todo`, delete the row, commit. -/
def delete_todo (store : TodoStore) (todo_id : Nat) (user_id : Nat) :
    Except HTTPError TodoStore :=
  match get_todo store todo_id user_id with
  | .error e => .error e
  | .ok todo => .ok (store.filter (fun t => !(t.id == todo.id)))

end TodoApp

namespace TodoApp

/-- C3. For every password of at least 8 characters, of any UTF-8 byte
length including lengths above the 71-byte truncation ceiling,
`verify_password p (get_password_hash p)` returns `true`: the identical
whole-character truncation loop runs in both the hashing path and the
verification path, so the round-trip holds for truncated and
non-truncated inputs alike. -/
theorem verify_roundtrip (p : List Char) (salt : Nat) (h : 8 ≤ p.length) :
    ∃ hp, get_password_hash p salt = Except.ok hp ∧ verify_password p hp = true := by
  refine ⟨bcrypt_hashpw (truncatePassword p) salt, ?_, ?_⟩
  · simp [get_password_hash, Nat.not_lt.mpr h]
  · simp [verify_password, bcrypt_checkpw, bcrypt_hashpw]

/-- Witness for C3 at a concrete 90-character (90-byte) password, longer
than the 71-byte ceiling, so the truncation loop actually fires. -/
theorem verify_roundtrip_witness :
    8 ≤ (List.replicate 90 'a').length ∧
      ∃ hp, get_password_hash (List.replicate 90 'a') 5 = Except.ok hp ∧
        verify_password (List.replicate 90 'a') hp = true :=
  ⟨by simp, verify_roundtrip (List.replicate 90 'a') 5 (by simp)⟩

/-- A concrete persisted row used by witnesses: todo 1 owned by user 1. -/
def sampleTodo1 : Todo :=
  { id := 1, title := "buy milk", description := none, completed := false,
    user_id := 1, created_at := 100, updated_at := 100, due_date := none,
    priority := some .medium }

/-- The fields `applyTodoUpdate` never writes: id, owning user, creation
and update timestamps — none of them is a field of `TodoUpdate`, so the
`setattr` loop cannot touch them. -/
theorem applyTodoUpdate_frame (todo : Todo) (u : TodoUpdate) :
    (applyTodoUpdate todo u).id = todo.id ∧
    (applyTodoUpdate todo u).user_id = todo.user_id ∧
    (applyTodoUpdate todo u).created_at = todo.created_at ∧
    (applyTodoUpdate todo u).updated_at = todo.updated_at := by
  obtain ⟨t, d, c, dd, p⟩ := u
  unfold applyTodoUpdate
  cases t <;> cases d <;> cases c <;> cases dd <;> cases p <;> simp

/-- C1. For distinct users `A` and `B` and a todo owned by `A`, B's
`get_todo`, `update_todo` and `delete_todo` on that todo's id all return
the very `HTTPException(404, "Todo not found")` value that `get_todo`
returns when no row with that id exists at all; no distinguishable
"forbidden" error value is produced.  The hypothesis `hpk` is the
primary-key uniqueness the storage collaborator enforces on `Todo.id`. -/
theorem cross_tenant_not_found (store : TodoStore) (A B : Nat) (t : Todo)
    (u : TodoUpdate) (hAB : A ≠ B) (ht : t ∈ store) (hown : t.user_id = A)
    (hpk : ∀ s ∈ store, s.id = t.id → s.user_id = A) :
    get_todo store t.id B = Except.error ⟨404, "Todo not found"⟩ ∧
    update_todo store t.id u B = Except.error ⟨404, "Todo not found"⟩ ∧
    delete_todo store t.id B = Except.error ⟨404, "Todo not found"⟩ ∧
    get_todo (store.filter fun s => !(s.id == t.id)) t.id B =
      Except.error ⟨404, "Todo not found"⟩ := by
  have hget : get_todo store t.id B = Except.error ⟨404, "Todo not found"⟩ := by
    unfold get_todo
    rw [List.find?_eq_none.mpr]
    intro s hs
    simp only [Bool.and_eq_true, beq_iff_eq, not_and]
    intro hid huser
    exact hAB ((hpk s hs hid) ▸ huser ▸ rfl)
  refine ⟨hget, ?_, ?_, ?_⟩
  · unfold update_todo; rw [hget]
  · unfold delete_todo; rw [hget]
  · unfold get_todo
    rw [List.find?_eq_none.mpr]
    intro s hs
    simp only [List.mem_filter, Bool.not_eq_true', beq_eq_false_iff_ne] at hs
    simp only [Bool.and_eq_true, beq_iff_eq, not_and]
    intro hid
    exact absurd hid hs.2

/-- Witness for C1: user 2 probing user 1's todo. -/
theorem cross_tenant_not_found_witness :
    get_todo [sampleTodo1] 1 2 = Except.error ⟨404, "Todo not found"⟩ ∧
    update_todo [sampleTodo1] 1 { title := some "x" } 2 =
      Except.error ⟨404, "Todo not found"⟩ ∧
    delete_todo [sampleTodo1] 1 2 = Except.error ⟨404, "Todo not found"⟩ ∧
    get_todo (([sampleTodo1] : TodoStore).filter fun s => !(s.id == 1)) 1 2 =
      Except.error ⟨404, "Todo not found"⟩ :=
  cross_tenant_not_found [sampleTodo1] 1 2 sampleTodo1 { title := some "x" }
    (by decide) (by simp) rfl (by intro s hs h; simp at hs; subst hs; rfl)

/-- C4. The owner is set at creation and immutable thereafter: the todo
built by `create_todo` carries the authenticated caller's `user_id`
whatever the payload contains (`TodoCreate` has no user-id field), and a
successful `update_todo` leaves the owning `user_id` of the item exactly
as it was before the patch. -/
theorem owner_forced_and_immutable (store : TodoStore) (tc : TodoCreate)
    (u : TodoUpdate) (uid new_id now tid : Nat) :
    (create_todo store tc uid new_id now).1.user_id = uid ∧
    (∀ t t' store', get_todo store tid uid = Except.ok t →
      update_todo store tid u uid = Except.ok (t', store') →
      t'.user_id = t.user_id) := by
  refine ⟨rfl, ?_⟩
  intro t t' store' hget hupd
  unfold update_todo at hupd
  rw [hget] at hupd
  simp only [Except.ok.injEq, Prod.mk.injEq] at hupd
  rw [← hupd.1]
  exact (applyTodoUpdate_frame t u).2.1

/-- Witness for C4 at a concrete store, payload and patch. -/
theorem owner_forced_and_immutable_witness :
    (create_todo [sampleTodo1] { title := "a" } 1 2 100).1.user_id = 1 ∧
    (∀ t t' store', get_todo [sampleTodo1] 1 1 = Except.ok t →
      update_todo [sampleTodo1] 1 { completed := some true } 1 =
        Except.ok (t', store') →
      t'.user_id = t.user_id) :=
  owner_forced_and_immutable [sampleTodo1] { title := "a" }
    { completed := some true } 1 2 100 1

/-- C10. A successful `update_todo` leaves `updated_at` unchanged: the
returned item keeps the `updated_at` of the pre-update row, and the
committed store is exactly the old store with the rows of that id
replaced by that item — `TodoUpdate` exposes no `updated_at` field and
the update loop writes only the fields present in the patch. -/
theorem updated_at_never_touched (store : TodoStore) (tid : Nat)
    (u : TodoUpdate) (uid : Nat) (t' : Todo) (store' : TodoStore)
    (h : update_todo store tid u uid = Except.ok (t', store')) :
    ∃ t, get_todo store tid uid = Except.ok t ∧
      t'.updated_at = t.updated_at ∧ t'.created_at = t.created_at ∧
      store' = store.map (fun s => if s.id == tid then t' else s) := by
  unfold update_todo at h
  cases hget : get_todo store tid uid with
  | error e => rw [hget] at h; exact absurd h (by simp)
  | ok t =>
    rw [hget] at h
    simp only [Except.ok.injEq, Prod.mk.injEq] at h
    refine ⟨t, rfl, ?_, ?_, ?_⟩
    · rw [← h.1]; exact (applyTodoUpdate_frame t u).2.2.2
    · rw [← h.1]; exact (applyTodoUpdate_frame t u).2.2.1
    · rw [← h.2, ← h.1]

/-- Witness for C10 at a concrete update that sets title and completed. -/
theorem updated_at_never_touched_witness :
    ∃ t, get_todo [sampleTodo1] 1 1 = Except.ok t ∧
      ({ sampleTodo1 with title := "done", completed := true } : Todo).updated_at
        = t.updated_at ∧
      ({ sampleTodo1 with title := "done", completed := true } : Todo).created_at
        = t.created_at ∧
      [({ sampleTodo1 with title := "done", completed := true } : Todo)] =
        ([sampleTodo1] : TodoStore).map
          (fun s => if s.id == 1
            then { sampleTodo1 with title := "done", completed := true } else s) :=
  updated_at_never_touched [sampleTodo1] 1
    { title := some "done", completed := some true } 1
    { sampleTodo1 with title := "done", completed := true }
    [{ sampleTodo1 with title := "done", completed := true }] rfl

/-- C5 (code bug). `TodoUpdate` carries no non-empty-title validator, so
while `parseTodoCreate` rejects an empty title with
`ValueError("Title cannot be empty")`, `update_todo` with the patch
`{title: ""}` succeeds and commits a stored row whose title is the empty
string — the non-empty-title invariant is not preserved by partial
updates. -/
theorem empty_title_survives_update :
    parseTodoCreate "" none false none (some .medium) =
      Except.error "Title cannot be empty" ∧
    update_todo [sampleTodo1] 1 { title := some "" } 1 =
      Except.ok ({ sampleTodo1 with title := "" },
                 [{ sampleTodo1 with title := "" }]) := by
  constructor
  · rfl
  · rfl

/-- The `User` table row (`api/backend/src/models/user.py` lines 10-19): id,
unique email, password hash, creation and update timestamps, active flag
defaulting to true. -/
structure User where
  id : Nat
  email : String
  password_hash : BcryptHash
  created_at : Nat
  updated_at : Nat
  is_active : Bool
deriving DecidableEq, Repr

/-- The user directory: the list of persisted user rows. -/
abbrev UserStore := List User

/-- The `UserCreate.validate_password` field validator
(`api/backend/src/models/user.py` lines 24-31), run by pydantic while the
registration request body is parsed, before the route body executes:
under 8 characters or over 72 UTF-8 bytes is rejected with a
`ValueError`. -/
def validate_password (v : List Char) : Except String (List Char) :=
  if v.length < 8 then
    .error "Password must be at least 8 characters long"
  else if utf8Len v > 72 then
    .error "Password must not exceed 72 bytes when encoded"
  else
    .ok v

/-- Embeds `UserPublic` (`api/backend/src/models/user.py` lines 47-49): the
registration response model — id, email, created_at, and no hash field
at all. -/
structure UserPublic where
  id : Nat
  email : String
  created_at : Nat
deriving DecidableEq, Repr

/-- Embeds `create_user` (`backend/src/services/auth.py` lines 145-163): hash
the password, build the `User` row (active by default), add and commit.
The fresh primary key, clock and bcrypt salt are passed explicitly. -/
def create_user (users : UserStore) (email : String) (password : List Char)
    (new_id now salt : Nat) : Except String (User × UserStore) :=
  match get_password_hash password salt with
  | .error e => .error e
  | .ok h =>
    let user : User :=
      { id := new_id, email := email, password_hash := h,
        created_at := now, updated_at := now, is_active := true }
    .ok (user, users ++ [user])

/-- The `register` route (`backend/src/api/auth.py` lines 15-44) together
with the pydantic parsing of its `UserCreate` body: a failing
`validate_password` yields the framework's 422 validation response
before the route body runs; the route then rejects an already-present
email with `HTTPException(409)`, otherwise calls `create_user` (an
exception there is caught, rolled back and re-raised as a 400).
Returns the outcome, the post-request user store, and the number of
`get_password_hash` invocations that were performed. -/
def register (users : UserStore) (email : String) (password : List Char)
    (new_id now salt : Nat) : Except HTTPError UserPublic × UserStore × Nat :=
  match validate_password password with
  | .error msg => (.error ⟨422, msg⟩, users, 0)
  | .ok pw =>
    if (users.find? (fun u => u.email == email)).isSome then
      (.error ⟨409, "User with this email already exists"⟩, users, 0)
    else
      match create_user users email pw new_id now salt with
      | .error e => (.error ⟨400, "Registration failed: " ++ e⟩, users, 1)
      | .ok (user, users') =>
        (.ok ⟨user.id, user.email, user.created_at⟩, users', 1)

/-- Embeds `authenticate_user` (`backend/src/services/auth.py` lines 78-88):
select the user by email; `None` when the email is absent or the
password does not verify, the user row otherwise.  The `is_active` flag
is not consulted here. -/
def authenticate_user (users : UserStore) (email : String) (password : List Char) :
    Option User :=
  match users.find? (fun u => u.email == email) with
  | none => none
  | some user =>
    if verify_password password user.password_hash then some user else none

/-- Embeds `SECRET_KEY` (`backend/src/services/auth.py` line 21), embedded as
an opaque numeric signing secret. -/
def SECRET_KEY : Nat := 0

/-- Embeds `ACCESS_TOKEN_EXPIRE_MINUTES` (`backend/src/services/auth.py`
line 23), default 30. -/
def ACCESS_TOKEN_EXPIRE_MINUTES : Nat := 30

/-- A bearer token as the verifier sees it: either unparseable, or a signed
payload carrying an optional `sub` claim, an absolute expiry, and the
secret it was signed with (signature validity is embedded as equality of
the signing secret with the verifier's secret). -/
inductive BearerToken where
  | malformed
  | signed (sub : Option String) (exp : Nat) (secret : Nat)
deriving DecidableEq, Repr

/-- Embeds `create_access_token` (`backend/src/services/auth.py` lines
90-103): the encoded expiry is the current time plus `expires_delta`
when one is given, 15 minutes otherwise, and the payload is signed with
`SECRET_KEY`. -/
def create_access_token (sub : String) (now : Nat) (expires_delta : Option Nat) :
    BearerToken :=
  let expire := match expires_delta with
    | some d => now + d
    | none => now + 15 * 60
  .signed (some sub) expire SECRET_KEY

inductive JWTDecodeError where
  | invalidSignature
  | expired
  | malformed
deriving DecidableEq, Repr

/-- Modelled from the spec: `jwt.decode` lives in the external JWT library
(python-jose), not in this repository; spec §4.2 gives its interface —
fails with `InvalidSignature` if the signature does not match,
`Expired` if current time ≥ encoded expiry, `Malformed` if the token
cannot be parsed. -/
def jwt_decode (token : BearerToken) (secret : Nat) (now : Nat) :
    Except JWTDecodeError (Option String) :=
  match token with
  | .malformed => .error .malformed
  | .signed sub exp sig =>
    if sig ≠ secret then .error .invalidSignature
    else if exp ≤ now then .error .expired
    else .ok sub

/-- Embeds the single 401 raised for every token failure by
`get_current_user` (`backend/src/services/auth.py` lines 112-116). -/
def credentials_exception : HTTPError := ⟨401, "Could not validate credentials"⟩

/-- Embeds `get_current_user` (`backend/src/services/auth.py` lines
105-135): decode the bearer token; any `JWTError` and a missing `sub`
claim raise the same `credentials_exception`, as does an email that
resolves to no user; otherwise the looked-up user row is returned. -/
def get_current_user (users : UserStore) (token : BearerToken) (now : Nat) :
    Except HTTPError User :=
  match jwt_decode token SECRET_KEY now with
  | .error _ => .error credentials_exception
  | .ok none => .error credentials_exception
  | .ok (some email) =>
    match users.find? (fun u => u.email == email) with
    | none => .error credentials_exception
    | some user => .ok user

/-- Embeds `get_current_active_user` (`backend/src/services/auth.py` lines
137-143): re-raise `get_current_user`'s failure, and reject a resolved
but inactive user with `HTTPException(400, "Inactive user")`. -/
def get_current_active_user (users : UserStore) (token : BearerToken) (now : Nat) :
    Except HTTPError User :=
  match get_current_user users token now with
  | .error e => .error e
  | .ok user =>
    if !user.is_active then .error ⟨400, "Inactive user"⟩ else .ok user

/-- The `login` route (`backend/src/api/auth.py` lines 46-78): a `None` from
`authenticate_user` becomes one fixed 401; otherwise a token with
`sub = user.email` and a 30-minute expiry is issued alongside the
user's id and email. -/
structure LoginResponse where
  access_token : BearerToken
  token_type : String
  user_id : Nat
  user_email : String
deriving DecidableEq, Repr

def login (users : UserStore) (email : String) (password : List Char) (now : Nat) :
    Except HTTPError LoginResponse :=
  match authenticate_user users email password with
  | none => .error ⟨401, "Incorrect email or password"⟩
  | some user =>
    .ok { access_token :=
            create_access_token user.email now (some (ACCESS_TOKEN_EXPIRE_MINUTES * 60))
          token_type := "bearer"
          user_id := user.id
          user_email := user.email }

/-- The `update_todo_item` route (`backend/src/api/todos.py` lines 61-72):
resolve the caller through `get_current_active_user`, then run the
user-scoped `update_todo`. -/
def update_todo_route (users : UserStore) (store : TodoStore) (token : BearerToken)
    (now : Nat) (todo_id : Nat) (todo_update : TodoUpdate) :
    Except HTTPError (Todo × TodoStore) :=
  match get_current_active_user users token now with
  | .error e => .error e
  | .ok user => update_todo store todo_id todo_update user.id

/-- Soft-deactivation of a user (spec §3 lifecycle; the `is_active` flag of
`UserUpdate` in `api/backend/src/models/user.py`). -/
def deactivate (users : UserStore) (uid : Nat) : UserStore :=
  users.map (fun u => if u.id == uid then { u with is_active := false } else u)

/-- A concrete stored hash of the password "password123" (11 bytes, no
truncation needed). -/
def alicePasswordHash : BcryptHash := bcrypt_hashpw "password123".toList 5

/-- A concrete active user row used by witnesses. -/
def activeAlice : User :=
  { id := 1, email := "alice@example.com", password_hash := alicePasswordHash,
    created_at := 50, updated_at := 50, is_active := true }

/-- The same user row with the active flag cleared. -/
def inactiveAlice : User := { activeAlice with is_active := false }

/-- C2 (counterexample). A stored user whose active flag is false, whose
email exists and whose password verifies, logs in successfully:
`authenticate_user` never consults `is_active`, so the claim that
inactive accounts fail login with the invalid-credentials error is
false on this code. -/
theorem inactive_login_succeeds :
    inactiveAlice.is_active = false ∧
    verify_password "password123".toList inactiveAlice.password_hash = true ∧
    (login [inactiveAlice] "alice@example.com" "password123".toList 0).isOk = true := by
  refine ⟨rfl, by decide, by decide⟩

/-- C2 (amended). A missing email and a non-verifying password collapse to
the one 401 "Incorrect email or password" response, but the active flag
is not part of the login decision: any stored user whose email is found
and whose password verifies — the hypotheses say nothing about
`is_active` — receives a token. -/
theorem login_collapses_failures_ignores_active (users : UserStore)
    (email : String) (password : List Char) (now : Nat) (user : User)
    (hfind : users.find? (fun u => u.email == email) = some user)
    (hverify : verify_password password user.password_hash = true) :
    (login users email password now).isOk = true ∧
    (∀ e2 p2, authenticate_user users e2 p2 = none →
      login users e2 p2 now = .error ⟨401, "Incorrect email or password"⟩) := by
  constructor
  · simp [login, authenticate_user, hfind, hverify, Except.isOk, Except.toBool]
  · intro e2 p2 h2
    simp [login, h2]

/-- Witness for the amended C2 at the concrete inactive user. -/
theorem login_collapses_failures_ignores_active_witness :
    (login [inactiveAlice] "alice@example.com" "password123".toList 0).isOk = true ∧
    (∀ e2 p2, authenticate_user [inactiveAlice] e2 p2 = none →
      login [inactiveAlice] e2 p2 0 = .error ⟨401, "Incorrect email or password"⟩) :=
  login_collapses_failures_ignores_active [inactiveAlice] "alice@example.com"
    "password123".toList 0 inactiveAlice (by decide) (by decide)

/-- C6. A registration with an email already stored (case-sensitive string
equality, as in `User.email == user_create.email`) fails with the 409
conflict and leaves the user store untouched, with the password never
hashed; a registration with an email not stored and a valid password
succeeds and persists exactly one new user, with that email and the
fresh id. -/
theorem register_conflict_and_success (users : UserStore) (email : String)
    (password : List Char) (new_id now salt : Nat)
    (hlen : 8 ≤ password.length) (hbytes : utf8Len password ≤ 72) :
    ((∃ u ∈ users, u.email = email) →
      register users email password new_id now salt =
        (.error ⟨409, "User with this email already exists"⟩, users, 0)) ∧
    ((∀ u ∈ users, u.email ≠ email) →
      ∃ user, register users email password new_id now salt =
        (.ok ⟨user.id, user.email, user.created_at⟩, users ++ [user], 1) ∧
        user.email = email ∧ user.id = new_id ∧ user.created_at = now) := by
  have hval : validate_password password = .ok password := by
    simp [validate_password, Nat.not_lt.mpr hlen, Nat.not_lt.mpr hbytes]
  constructor
  · intro ⟨u, hu, hemail⟩
    have hsome : (users.find? (fun v => v.email == email)).isSome = true := by
      rw [List.find?_isSome]
      exact ⟨u, hu, by simp [hemail]⟩
    simp [register, hval, hsome]
  · intro hnone
    have hfind : users.find? (fun v => v.email == email) = none :=
      List.find?_eq_none.mpr (fun v hv => by simp [hnone v hv])
    refine ⟨{ id := new_id, email := email,
              password_hash := bcrypt_hashpw (truncatePassword password) salt,
              created_at := now, updated_at := now, is_active := true }, ?_, rfl, rfl, rfl⟩
    simp [register, hval, hfind, create_user, get_password_hash, Nat.not_lt.mpr hlen]

/-- Witness for C6: both branches at a concrete one-user store. -/
theorem register_conflict_and_success_witness :
    ((∃ u ∈ [activeAlice], u.email = "alice@example.com") →
      register [activeAlice] "alice@example.com" "password123".toList 9 200 5 =
        (.error ⟨409, "User with this email already exists"⟩, [activeAlice], 0)) ∧
    ((∀ u ∈ [activeAlice], u.email ≠ "alice@example.com") →
      ∃ user, register [activeAlice] "alice@example.com" "password123".toList 9 200 5 =
        (.ok ⟨user.id, user.email, user.created_at⟩, [activeAlice] ++ [user], 1) ∧
        user.email = "alice@example.com" ∧ user.id = 9 ∧ user.created_at = 200) :=
  register_conflict_and_success [activeAlice] "alice@example.com"
    "password123".toList 9 200 5 (by decide) (by decide)

/-- C7. A token issued at `t0` with time-to-live `T` resolves its encoded
subject at every instant strictly before `t0 + T`; at every instant at
or after `t0 + T` the decode fails with the expiry-class error
(expiry semantics `now ≥ exp` modelled from spec §4.2, the comparison
being inside the external JWT library), and at the API boundary that
failure is the very 401 produced for a malformed token and for a token
signed with the wrong secret. -/
theorem token_expiry_boundary (users : UserStore) (email : String) (user : User)
    (t0 T t : Nat)
    (hfind : users.find? (fun u => u.email == email) = some user) :
    (t < t0 + T →
      jwt_decode (create_access_token email t0 (some T)) SECRET_KEY t =
        .ok (some email) ∧
      get_current_user users (create_access_token email t0 (some T)) t =
        Except.ok user) ∧
    (t0 + T ≤ t →
      jwt_decode (create_access_token email t0 (some T)) SECRET_KEY t =
        .error .expired ∧
      get_current_user users (create_access_token email t0 (some T)) t =
        Except.error credentials_exception ∧
      get_current_user users .malformed t = Except.error credentials_exception ∧
      get_current_user users (.signed (some email) (t + 1000) (SECRET_KEY + 1)) t =
        Except.error credentials_exception) := by
  constructor
  · intro hlt
    have hdec : jwt_decode (create_access_token email t0 (some T)) SECRET_KEY t =
        .ok (some email) := by
      simp only [create_access_token, jwt_decode]
      rw [if_neg (by simp), if_neg (by omega)]
    exact ⟨hdec, by simp [get_current_user, hdec, hfind]⟩
  · intro hge
    have hdec : jwt_decode (create_access_token email t0 (some T)) SECRET_KEY t =
        .error .expired := by
      simp only [create_access_token, jwt_decode]
      rw [if_neg (by simp), if_pos (by omega)]
    refine ⟨hdec, by simp [get_current_user, hdec], by simp [get_current_user, jwt_decode], ?_⟩
    simp only [get_current_user, jwt_decode]
    rw [if_pos (by simp)]

/-- Witness for C7 at a token issued at time 0 with a 60-second ttl,
observed at time 59. -/
theorem token_expiry_boundary_witness :
    (59 < 0 + 60 →
      jwt_decode (create_access_token "alice@example.com" 0 (some 60)) SECRET_KEY 59 =
        .ok (some "alice@example.com") ∧
      get_current_user [activeAlice] (create_access_token "alice@example.com" 0 (some 60)) 59 =
        Except.ok activeAlice) ∧
    (0 + 60 ≤ 59 →
      jwt_decode (create_access_token "alice@example.com" 0 (some 60)) SECRET_KEY 59 =
        .error .expired ∧
      get_current_user [activeAlice] (create_access_token "alice@example.com" 0 (some 60)) 59 =
        Except.error credentials_exception ∧
      get_current_user [activeAlice] .malformed 59 = Except.error credentials_exception ∧
      get_current_user [activeAlice] (.signed (some "alice@example.com") (59 + 1000) (SECRET_KEY + 1)) 59 =
        Except.error credentials_exception) :=
  token_expiry_boundary [activeAlice] "alice@example.com" activeAlice 0 60 59 (by decide)

/-- C8 (counterexample). After deactivating the token's user, an update
request bearing a still-unexpired, correctly signed token fails with
`HTTPException(400, "Inactive user")` — a distinguishable error, not
the single 401 unauthenticated response the claim asserts. -/
theorem deactivated_request_error_distinguishable :
    update_todo_route (deactivate [activeAlice] 1) [sampleTodo1]
        (create_access_token "alice@example.com" 0 (some 1800)) 10 1 {} =
      Except.error ⟨400, "Inactive user"⟩ ∧
    (⟨400, "Inactive user"⟩ : HTTPError) ≠ credentials_exception := by
  constructor
  · rfl
  · decide

/-- C8 (amended). After a user is deactivated, a request bearing that
user's still-unexpired, correctly signed token has the token verify
cryptographically and resolve the user from the current directory
state, and then fails with `HTTPException(400, "Inactive user")`
before any todo operation runs — the decision is re-derived from the
stored `is_active` flag, not from the token's claims. -/
theorem deactivated_requests_fail (users : UserStore) (uid : Nat) (email : String)
    (v : User) (t0 T t tid : Nat) (patch : TodoUpdate) (store : TodoStore)
    (hfind : (deactivate users uid).find? (fun w => w.email == email) = some v)
    (hinactive : v.is_active = false)
    (hunexpired : t < t0 + T) :
    get_current_user (deactivate users uid) (create_access_token email t0 (some T)) t =
      Except.ok v ∧
    update_todo_route (deactivate users uid) store
        (create_access_token email t0 (some T)) t tid patch =
      Except.error ⟨400, "Inactive user"⟩ := by
  have hdec : jwt_decode (create_access_token email t0 (some T)) SECRET_KEY t =
      .ok (some email) := by
    simp only [create_access_token, jwt_decode]
    rw [if_neg (by simp), if_neg (by omega)]
  have hcu : get_current_user (deactivate users uid)
      (create_access_token email t0 (some T)) t = Except.ok v := by
    simp [get_current_user, hdec, hfind]
  exact ⟨hcu, by simp [update_todo_route, get_current_active_user, hcu, hinactive]⟩

/-- Witness for the amended C8 at the concrete deactivated user. -/
theorem deactivated_requests_fail_witness :
    get_current_user (deactivate [activeAlice] 1)
      (create_access_token "alice@example.com" 0 (some 1800)) 10 =
        Except.ok { activeAlice with is_active := false } ∧
    update_todo_route (deactivate [activeAlice] 1) [sampleTodo1]
        (create_access_token "alice@example.com" 0 (some 1800)) 10 1 {} =
      Except.error ⟨400, "Inactive user"⟩ :=
  deactivated_requests_fail [activeAlice] 1 "alice@example.com"
    { activeAlice with is_active := false } 0 1800 10 1 {} [sampleTodo1]
    (by decide) rfl (by decide)

/-- C9. A registration whose password is under 8 characters, or over the
72-byte bcrypt ceiling, is stopped by the pydantic validator with a 422
before the route body runs: the user store is unchanged and
`get_password_hash` is invoked zero times.  A successful registration
answers exactly the `UserPublic` triple id / email / created_at — the
response is the same whatever the stored hash is, so the hash can never
appear in it. -/
theorem password_validated_before_hash_and_store (users : UserStore)
    (email : String) (password : List Char) (new_id now salt : Nat) :
    (password.length < 8 →
      register users email password new_id now salt =
        (.error ⟨422, "Password must be at least 8 characters long"⟩, users, 0)) ∧
    (8 ≤ password.length → utf8Len password > 72 →
      register users email password new_id now salt =
        (.error ⟨422, "Password must not exceed 72 bytes when encoded"⟩, users, 0)) ∧
    (∀ pub users' n, register users email password new_id now salt =
        (.ok pub, users', n) →
      pub = ⟨new_id, email, now⟩) := by
  refine ⟨?_, ?_, ?_⟩
  · intro hshort
    simp [register, validate_password, hshort]
  · intro hlen hbytes
    simp [register, validate_password, Nat.not_lt.mpr hlen, hbytes]
  · intro pub users' n h
    by_cases hshort : password.length < 8
    · simp [register, validate_password, hshort] at h
    · by_cases hbytes : utf8Len password > 72
      · simp [register, validate_password, hshort, hbytes] at h
      · by_cases hdup : (users.find? (fun v => v.email == email)).isSome = true
        · simp [register, validate_password, hshort, hbytes, hdup] at h
        · simp [register, validate_password, hshort, hbytes, hdup,
                create_user, get_password_hash] at h
          exact h.1.symm

/-- Witness for C9 at a concrete five-character password. -/
theorem password_validated_before_hash_and_store_witness :
    register [activeAlice] "bob@example.com" "abcde".toList 9 200 5 =
      (.error ⟨422, "Password must be at least 8 characters long"⟩, [activeAlice], 0) :=
  (password_validated_before_hash_and_store [activeAlice] "bob@example.com"
    "abcde".toList 9 200 5).1 (by decide)

end TodoApp
